import Mathlib

/-!
Shallow embedding of the Telegram file-shop bot (`bot.py`): product catalog,
purchase ledger, payment-provider verification and the chat handlers
`callback_buy`, `startpay_handler`, `receipt_handler` and `product_view`.

Modelling conventions:
* SQLite rows become structures; the two tables become lists kept in insertion
  order, with the AUTOINCREMENT counters carried explicitly (starting at 1).
* The outbound HTTPS verification calls are an oracle (`World`): each provider
  field gives the boolean outcome of the provider API check, with a transport
  error or a non-success response both collapsing to `false`, exactly as the
  `try/except` in `verify_with_provider` does.
* Python `int(s)` is modelled for an optional ASCII sign followed by ASCII
  digits; `s.isdigit()` is modelled as nonempty-and-all-ASCII-digits.
* `reply_text` messages are abstracted to constructors of a result type; an
  exception escaping the handler is the `exn` result.
-/

namespace StoreBot

/-- One plan of a product (`product.json` → `plans.<tier>`). -/
structure Plan where
  name : String
  price : Int
  download_link : String
deriving Repr, DecidableEq

/-- One product definition (`product.json`); `plans` maps tier name to plan. -/
structure Product where
  title : String
  description : String
  cover_image : String
  plans : List (String × Plan)
deriving Repr, DecidableEq

/-- The products directory: catalog key → product definition. -/
abbrev Catalog := List (String × Product)

/-- `load_product(pid)`: read `products/<pid>/product.json`; `none` models the
exception raised when the directory or file is absent. -/
def load_product (cat : Catalog) (pid : String) : Option Product :=
  cat.lookup pid

/-- `prod["plans"][plan]["download_link"]` as performed by `receipt_handler`
after `load_product`; `none` models either exception of that chain. -/
def resolveLink (cat : Catalog) (pid plan : String) : Option String :=
  (load_product cat pid).bind fun pr => (pr.plans.lookup plan).map (·.download_link)

/-- Row of the `users` table. -/
structure UserRow where
  id : Int
  telegram_id : Int
  username : String
  created_at : Int
deriving Repr, DecidableEq

/-- Row of the `purchases` table. -/
structure Purchase where
  id : Int
  user_id : Int
  product_id : String
  plan : String
  provider : String
  provider_ref : Option String
  amount : Int
  success : Bool
  created_at : Int
deriving Repr, DecidableEq

/-- The SQLite database: both tables in insertion order plus the
AUTOINCREMENT counters (SQLite assigns ids from 1). -/
structure St where
  users : List UserRow
  nextUserId : Int
  purchases : List Purchase
  nextPurchaseId : Int
deriving Repr, DecidableEq

/-- The credential fields of `config.json` read by the payment code. -/
structure Config where
  zarinpal_merchant_id : Option String
  idpay_api_key : Option String
  nextpay_api_key : Option String
deriving Repr, DecidableEq

/-- Python truthiness of `cfg.get(key)` for an optional string field:
missing (`None`) and the empty string are falsy. -/
def truthy : Option String → Bool
  | none => false
  | some s => !(s == "")

/-- `keys_present` in `receipt_handler`:
`cfg.get("zarinpal_merchant_id") or cfg.get("idpay_api_key") or cfg.get("nextpay_api_key")`. -/
def keysPresent (cfg : Config) : Bool :=
  truthy cfg.zarinpal_merchant_id || truthy cfg.idpay_api_key || truthy cfg.nextpay_api_key

/-- The credential `verify_with_provider` consults for a given provider name. -/
def provCred (cfg : Config) (provider : String) : Option String :=
  if provider == "zarinpal" then cfg.zarinpal_merchant_id
  else if provider == "idpay" then cfg.idpay_api_key
  else if provider == "nextpay" then cfg.nextpay_api_key
  else none

/-- Environment of the outbound verification calls: whether `requests`
imported, and the outcome of each provider's API check (transport errors and
failure responses are both `false`, as the `try/except` coerces them). The
zarinpal call sends `amount*10`; the idpay and nextpay payloads carry only the
reference. -/
structure World where
  requestsAvailable : Bool
  zarinpalVerify : Option String → Int → Bool
  idpayVerify : Option String → Bool
  nextpayVerify : Option String → Bool

/-- `verify_with_provider(provider, ref, amount)`. -/
def verify_with_provider (cfg : Config) (w : World) (provider : String)
    (ref : Option String) (amount : Int) : Bool :=
  if !w.requestsAvailable then false
  else if provider == "zarinpal" && truthy cfg.zarinpal_merchant_id then
    w.zarinpalVerify ref (amount * 10)
  else if provider == "idpay" && truthy cfg.idpay_api_key then
    w.idpayVerify ref
  else if provider == "nextpay" && truthy cfg.nextpay_api_key then
    w.nextpayVerify ref
  else false

/-! ### String helpers mirroring the Python text handling

All helpers are written over the character list of the string so that they
reduce by computation inside the kernel. -/

/-- `s.strip()`: drop whitespace from both ends. -/
def pyStrip (s : String) : String :=
  String.mk (((s.data.dropWhile Char.isWhitespace).reverse.dropWhile Char.isWhitespace).reverse)

/-- Accumulator loop behind `pySplit`. -/
def splitWsAux : List Char → List Char → List String
  | [], acc => if acc.isEmpty then [] else [String.mk acc.reverse]
  | c :: cs, acc =>
    if c.isWhitespace then
      if acc.isEmpty then splitWsAux cs []
      else String.mk acc.reverse :: splitWsAux cs []
    else splitWsAux cs (c :: acc)

/-- `s.split()`: split on whitespace runs, dropping empty pieces. -/
def pySplit (s : String) : List String := splitWsAux s.data []

/-- Loop behind `pySplitChar`. -/
def splitOnCharAux (c : Char) : List Char → List (List Char)
  | [] => [[]]
  | x :: xs =>
    if x == c then [] :: splitOnCharAux c xs
    else
      match splitOnCharAux c xs with
      | [] => [[x]]
      | a :: rest => (x :: a) :: rest

/-- `s.split(c)` for a one-character separator (as in `data.split("|")`). -/
def pySplitChar (s : String) (c : Char) : List String :=
  (splitOnCharAux c s.data).map String.mk

/-- `s.lower()` (ASCII case folding; the Persian label is unaffected in both
Python and this model). -/
def pyLower (s : String) : String := String.mk (s.data.map Char.toLower)

/-- Value of an ASCII digit string. -/
def digitsVal (l : List Char) : Nat :=
  l.foldl (fun a c => a * 10 + (c.toNat - '0'.toNat)) 0

/-- `int(s)` on a whitespace-free token: optional ASCII sign then ASCII
digits; `none` models `ValueError`. -/
def pyInt (s : String) : Option Int :=
  match s.data with
  | [] => none
  | '+' :: rest =>
    if !rest.isEmpty && rest.all (·.isDigit) then some (digitsVal rest) else none
  | '-' :: rest =>
    if !rest.isEmpty && rest.all (·.isDigit) then some (-(digitsVal rest : Int)) else none
  | l =>
    if l.all (·.isDigit) then some (digitsVal l) else none

/-- `s.isdigit()` restricted to ASCII digits. -/
def pyIsdigit (s : String) : Bool :=
  !s.data.isEmpty && s.data.all (·.isDigit)

/-- The token scan of `receipt_handler` (lines 239-255): returns
`(purchase_id, txid)`. A `"تراکنش <id> <proof>"` message whose id token fails
`int()` leaves both `None` (the `except: pass` swallows the error before
`txid` is assigned). -/
def parseProof (parts : List String) : Option Int × Option String :=
  match parts with
  | [] => (none, none)
  | p0 :: _ =>
    if pyLower p0 == "تراکنش" && decide (3 ≤ parts.length) then
      match pyInt (parts.getD 1 "") with
      | some n => (some n, some (parts.getD 2 ""))
      | none => (none, none)
    else if decide (parts.length = 2) && pyIsdigit p0 then
      match pyInt p0 with
      | some n => (some n, some (parts.getD 1 ""))
      | none => (none, none)
    else
      (none, parts.getLast?)

/-! ### Ledger queries and updates used by the handlers -/

/-- `SELECT * FROM purchases WHERE success=0 ORDER BY created_at DESC` +
`fetchone()`: among pending rows the one with the greatest `created_at`, the
later-inserted row winning a timestamp tie. -/
def latestPending : List Purchase → Option Purchase
  | [] => none
  | p :: ps =>
    match latestPending ps with
    | none => if p.success then none else some p
    | some q =>
      if p.success then some q
      else if p.created_at ≤ q.created_at then some q else some p

/-- The purchase id `receipt_handler` acts on: the parsed id if any, else the
id of the latest pending row; `none` means the "no pending purchase" reply. -/
def resolvedTargetId (purchases : List Purchase) (pidOpt : Option Int) : Option Int :=
  match pidOpt with
  | some pid => some pid
  | none => (latestPending purchases).map (·.id)

/-- `UPDATE purchases SET success=1, provider_ref=? WHERE id=?`. -/
def markSuccess (ps : List Purchase) (pid : Int) (ref : Option String) : List Purchase :=
  ps.map fun q => if q.id == pid then { q with success := true, provider_ref := ref } else q

/-! ### Handlers -/

/-- What `receipt_handler` does to the chat: each `reply_text` becomes a
constructor, `silent` is the early `return` on empty text, `exn` an exception
escaping the handler after the verified `UPDATE` was committed. -/
inductive RResult where
  | silent
  | noPending
  | purchaseNotFound
  | rejected
  | fulfilled (link : String)
  | exn
deriving Repr, DecidableEq

/-- `(purchase_id, txid)` extracted from the raw message text. -/
def parsedProof (text : String) : Option Int × Option String :=
  parseProof (pySplit (pyStrip text))

/-- The purchase row `receipt_handler` loads for the resolved id (the
`SELECT * FROM purchases WHERE id=?`). -/
def resolvedTarget (st : St) (text : String) : Option Purchase :=
  match resolvedTargetId st.purchases (parsedProof text).1 with
  | none => none
  | some pid => st.purchases.find? (fun p => p.id == pid)

/-- `receipt_handler(update, context)`: `uid` is the sending user's id, which
the handler receives but never consults. Returns the database after the
handler and the chat outcome. -/
def receipt_handler (cfg : Config) (w : World) (cat : Catalog) (st : St)
    (uid : Int) (text : String) : St × RResult :=
  if pyStrip text == "" then (st, .silent)
  else
    match resolvedTargetId st.purchases (parsedProof text).1 with
    | none => (st, .noPending)
    | some pid =>
      match st.purchases.find? (fun p => p.id == pid) with
      | none => (st, .purchaseNotFound)
      | some p =>
        if verify_with_provider cfg w p.provider (parsedProof text).2 p.amount
            || !keysPresent cfg then
          match resolveLink cat p.product_id p.plan with
          | none =>
            ({ st with purchases := markSuccess st.purchases pid (parsedProof text).2 }, .exn)
          | some link =>
            ({ st with purchases := markSuccess st.purchases pid (parsedProof text).2 },
             .fulfilled link)
        else (st, .rejected)

/-- Outcome of `startpay_handler`: the reply contains the payment link and the
new purchase id; `exn` covers the unhandled unpack/`load_product`/plan-key
errors. -/
inductive SResult where
  | exn
  | link (payLink : String) (purchaseId : Int)
deriving Repr, DecidableEq

/-- The telegram user attached to a callback query. -/
structure TgUser where
  id : Int
  username : String
deriving Repr, DecidableEq

/-- The internal user id `startpay_handler` attaches to the new purchase:
the existing row's id, or the id the fresh `INSERT INTO users` receives. -/
def ensureUserId (st : St) (tgid : Int) : Int :=
  match st.users.find? (fun r => r.telegram_id == tgid) with
  | some r => r.id
  | none => st.nextUserId

/-- The `users` table after `startpay_handler`'s lookup-or-insert. -/
def ensureUserSt (st : St) (u : TgUser) (now : Int) : St :=
  match st.users.find? (fun r => r.telegram_id == u.id) with
  | some _ => st
  | none =>
    { st with
        users := st.users ++ [(⟨st.nextUserId, u.id, u.username, now⟩ : UserRow)],
        nextUserId := st.nextUserId + 1 }

/-- The redirect URL synthesized by the chosen provider's link builder
(any unknown provider string falls into the nextpay branch, as in the code's
final `else`). -/
def payLinkFor (provider tok : String) : String :=
  if provider == "zarinpal" then "https://www.zarinpal.com/pg/StartPay/" ++ tok
  else if provider == "idpay" then "https://idpay.ir/p/" ++ tok
  else "https://nextpay.org/nx/gateway/payment/" ++ tok

/-- `startpay_handler(update, context)`: `data` is the callback payload,
`now` the clock reading, `tok` the random token produced by the provider's
link builder. -/
def startpay_handler (cat : Catalog) (st : St) (u : TgUser) (data : String)
    (now : Int) (tok : String) : St × SResult :=
  match pySplitChar data '|' with
  | [_, pid, plan, provider] =>
    match load_product cat pid with
    | none => (st, .exn)
    | some prod =>
      match prod.plans.lookup plan with
      | none => (st, .exn)
      | some planinfo =>
        let st1 := ensureUserSt st u now
        ({ st1 with
            purchases := st1.purchases ++
              [⟨st1.nextPurchaseId, ensureUserId st u.id, pid, plan, provider, some tok,
                planinfo.price, false, now⟩],
            nextPurchaseId := st1.nextPurchaseId + 1 },
         .link (payLinkFor provider tok) st1.nextPurchaseId)
  | _ => (st, .exn)

/-- Outcome of `callback_buy`: the malformed-payload denial, the provider
keyboard showing the plan's price, or an unhandled exception. -/
inductive CBResult where
  | invalidData
  | offer (amount : Int)
  | exn
deriving Repr, DecidableEq

/-- `callback_buy(update, context)` on callback payload `data`; read-only. -/
def callback_buy (cat : Catalog) (data : String) : CBResult :=
  match pySplitChar data '|' with
  | [_, pid, plan] =>
    match load_product cat pid with
    | none => .exn
    | some prod =>
      match prod.plans.lookup plan with
      | none => .exn
      | some planinfo => .offer planinfo.price
  | _ => .invalidData

/-- Outcome of `product_view`. -/
inductive PVResult where
  | badFormat
  | productNotFound
  | view (econPrice goldPrice : Int)
  | exn
deriving Repr, DecidableEq

/-- Split a character list at the first occurrence of `c`
(Python `split(c, 1)` when it yields two pieces). -/
def splitFirst (c : Char) : List Char → Option (List Char × List Char)
  | [] => none
  | x :: xs =>
    if x == c then some ([], xs)
    else (splitFirst c xs).map fun pr => (x :: pr.1, pr.2)

/-- `update.message.text.strip().lstrip("/").split("_", 1)[1]` of
`product_view`; `none` is the malformed-command reply. -/
def productViewParse (text : String) : Option String :=
  (splitFirst '_' ((pyStrip text).toList.dropWhile (· == '/'))).map
    fun pr => String.mk pr.2

/-- `product_view(update, context)` on command text `text`; the lone
`try/except` covers only `load_product`, so a product missing either plan tier
raises out of the handler (`exn`). -/
def product_view (cat : Catalog) (text : String) : PVResult :=
  match productViewParse text with
  | none => .badFormat
  | some pid =>
    match load_product cat pid with
    | none => .productNotFound
    | some prod =>
      match prod.plans.lookup "economic", prod.plans.lookup "golden" with
      | some e, some g => .view e.price g.price
      | _, _ => .exn

/-! ### Basic lemmas about the ledger queries -/

theorem latestPending_pending {ps : List Purchase} {q : Purchase}
    (h : latestPending ps = some q) : q.success = false := by
  induction ps with
  | nil => simp [latestPending] at h
  | cons p ps ih =>
    simp only [latestPending] at h
    cases hrec : latestPending ps with
    | none =>
      rw [hrec] at h
      by_cases hs : p.success
      · simp [hs] at h
      · simp [hs] at h
        subst h
        simpa using hs
    | some r =>
      rw [hrec] at h
      by_cases hs : p.success
      · simp [hs] at h
        subst h
        exact ih hrec
      · simp [hs] at h
        by_cases hc : p.created_at ≤ r.created_at
        · simp [hc] at h
          subst h
          exact ih hrec
        · simp [hc] at h
          subst h
          simpa using hs

theorem latestPending_mem {ps : List Purchase} {q : Purchase}
    (h : latestPending ps = some q) : q ∈ ps := by
  induction ps with
  | nil => simp [latestPending] at h
  | cons p ps ih =>
    simp only [latestPending] at h
    cases hrec : latestPending ps with
    | none =>
      rw [hrec] at h
      by_cases hs : p.success
      · simp [hs] at h
      · simp [hs] at h
        subst h
        exact List.mem_cons_self _ _
    | some r =>
      rw [hrec] at h
      by_cases hs : p.success
      · simp [hs] at h
        subst h
        exact List.mem_cons_of_mem _ (ih hrec)
      · simp [hs] at h
        by_cases hc : p.created_at ≤ r.created_at
        · simp [hc] at h
          subst h
          exact List.mem_cons_of_mem _ (ih hrec)
        · simp [hc] at h
          subst h
          exact List.mem_cons_self _ _

theorem latestPending_ne_none {ps : List Purchase} {r : Purchase}
    (hr : r ∈ ps) (hrs : r.success = false) : latestPending ps ≠ none := by
  induction ps with
  | nil => simp at hr
  | cons p ps ih =>
    rcases List.mem_cons.mp hr with rfl | hr'
    · cases hrec : latestPending ps with
      | none => simp [latestPending, hrec, hrs]
      | some q =>
        simp only [latestPending, hrec]
        by_cases hc : r.created_at ≤ q.created_at <;> simp [hrs, hc]
    · have hne := ih hr'
      cases hrec : latestPending ps with
      | none => exact absurd hrec hne
      | some q =>
        by_cases hs : p.success <;> by_cases hc : p.created_at ≤ q.created_at <;>
          simp [latestPending, hrec, hs, hc]

theorem latestPending_max {ps : List Purchase} :
    ∀ {q : Purchase}, latestPending ps = some q →
      ∀ r ∈ ps, r.success = false → r.created_at ≤ q.created_at := by
  induction ps with
  | nil => intro q h; simp [latestPending] at h
  | cons p ps ih =>
    intro q h r hr hrs
    simp only [latestPending] at h
    rcases List.mem_cons.mp hr with rfl | hr'
    · cases hrec : latestPending ps with
      | none =>
        rw [hrec] at h
        simp [hrs] at h
        subst h
        exact le_refl _
      | some b =>
        rw [hrec] at h
        simp [hrs] at h
        by_cases hc : r.created_at ≤ b.created_at
        · simp [hc] at h
          subst h
          exact hc
        · simp [hc] at h
          subst h
          exact le_refl _
    · cases hrec : latestPending ps with
      | none => exact absurd hrec (latestPending_ne_none hr' hrs)
      | some b =>
        rw [hrec] at h
        have hrb : r.created_at ≤ b.created_at := ih hrec r hr' hrs
        by_cases hs : p.success
        · simp [hs] at h
          subst h
          exact hrb
        · simp [hs] at h
          by_cases hc : p.created_at ≤ b.created_at
          · simp [hc] at h
            subst h
            exact hrb
          · simp [hc] at h
            subst h
            exact le_trans hrb (le_of_not_le hc)

theorem latestPending_none {ps : List Purchase}
    (h : ∀ r ∈ ps, r.success = true) : latestPending ps = none := by
  induction ps with
  | nil => rfl
  | cons p ps ih =>
    have hp : p.success = true := h p (List.mem_cons_self _ _)
    have hrec : latestPending ps = none :=
      ih fun r hr => h r (List.mem_cons_of_mem _ hr)
    simp [latestPending, hrec, hp]

/-- A provider whose credential is not configured can never verify: the body
of `verify_with_provider` reaches its final `return False`. -/
theorem verify_no_cred {cfg : Config} (w : World) {provider : String}
    (h : truthy (provCred cfg provider) = false) (ref : Option String) (amount : Int) :
    verify_with_provider cfg w provider ref amount = false := by
  unfold verify_with_provider
  unfold provCred at h
  by_cases hz : provider = "zarinpal"
  · subst hz
    simp at h
    simp [h]
  · by_cases hi : provider = "idpay"
    · subst hi
      simp at h
      simp [h]
    · by_cases hn : provider = "nextpay"
      · subst hn
        simp at h
        simp [h]
      · simp [hz, hi, hn]

/-! ### Concrete fixtures used by witnesses and counterexamples -/

/-- No credential configured. -/
def exCfgNone : Config := ⟨none, none, none⟩

/-- Only the idpay credential configured. -/
def exCfgIdpay : Config := ⟨none, some "IDPAY-KEY", none⟩

/-- Oracle in which every provider API reports failure. -/
def exWorldOff : World := ⟨true, fun _ _ => false, fun _ => false, fun _ => false⟩

/-- Oracle in which every provider API reports success. -/
def exWorldOn : World := ⟨true, fun _ _ => true, fun _ => true, fun _ => true⟩

def exEcon : Plan := ⟨"Economic", 10000, "https://drive.example/econ"⟩

def exGold : Plan := ⟨"Golden", 20000, "https://drive.example/gold"⟩

def exProd : Product :=
  ⟨"Course", "A file", "cover.jpg", [("economic", exEcon), ("golden", exGold)]⟩

def exCat : Catalog := [("p1", exProd)]

def exUser : UserRow := ⟨1, 111, "alice", 5⟩

/-- A pending idpay purchase of the economic plan. -/
def exPendingIdpay : Purchase := ⟨1, 1, "p1", "economic", "idpay", some "tok0", 10000, false, 10⟩

def exStPending : St := ⟨[exUser], 2, [exPendingIdpay], 2⟩

/-- A pending zarinpal purchase of the economic plan. -/
def exPendingZarin : Purchase :=
  ⟨1, 1, "p1", "economic", "zarinpal", some "tok0", 10000, false, 10⟩

def exStZarin : St := ⟨[exUser], 2, [exPendingZarin], 2⟩

/-! ### Claims -/

/-- C8: `receipt_handler` never consults the sending user's identity. For any
fixed configuration, oracle, catalog, database and proof text, two different
senders cause the same ledger mutation and receive the same reply. -/
theorem C8_user_independence (cfg : Config) (w : World) (cat : Catalog) (st : St)
    (text : String) (u1 u2 : Int) :
    receipt_handler cfg w cat st u1 text = receipt_handler cfg w cat st u2 text := rfl

/-- C1: with zero provider credentials configured, `receipt_handler` treats
any nonempty proof text as verified: the pending purchase it resolves is
marked `success=1` (its `provider_ref` becoming the parsed proof) and the
plan's download link is returned. -/
theorem C1_no_creds_auto_fulfill
    (cfg : Config) (w : World) (cat : Catalog) (st : St) (uid : Int) (text : String)
    (p : Purchase) (link : String)
    (hnc : keysPresent cfg = false)
    (hne : pyStrip text ≠ "")
    (hres : resolvedTarget st text = some p)
    (hpend : p.success = false)
    (hlink : resolveLink cat p.product_id p.plan = some link) :
    receipt_handler cfg w cat st uid text
      = ({ st with purchases := markSuccess st.purchases p.id (parsedProof text).2 },
         .fulfilled link) := by
  unfold resolvedTarget at hres
  cases htid : resolvedTargetId st.purchases (parsedProof text).1 with
  | none => rw [htid] at hres; cases hres
  | some pid =>
    rw [htid] at hres
    have hfind : List.find? (fun q => q.id == pid) st.purchases = some p := hres
    have hid : p.id = pid := by
      have hb := List.find?_some hfind
      simpa using hb
    unfold receipt_handler
    rw [hid]
    simp [htid, hfind, hnc, hlink, hne]

/-- Witness for C1: a concrete pending idpay purchase, no credentials, proof
text naming it. -/
theorem C1_no_creds_auto_fulfill_witness :
    keysPresent exCfgNone = false ∧
    pyStrip "تراکنش 1 abc123" ≠ "" ∧
    resolvedTarget exStPending "تراکنش 1 abc123" = some exPendingIdpay ∧
    exPendingIdpay.success = false ∧
    resolveLink exCat exPendingIdpay.product_id exPendingIdpay.plan
      = some "https://drive.example/econ" ∧
    receipt_handler exCfgNone exWorldOff exCat exStPending 111 "تراکنش 1 abc123"
      = ({ exStPending with
            purchases := markSuccess exStPending.purchases exPendingIdpay.id
              (parsedProof "تراکنش 1 abc123").2 },
         .fulfilled "https://drive.example/econ") :=
  ⟨by decide, by decide, by decide, by decide, by decide,
   C1_no_creds_auto_fulfill _ _ _ _ _ _ _ _
     (by decide) (by decide) (by decide) (by decide) (by decide)⟩

/-- C2 counterexample: with only the idpay credential configured (and even an
oracle in which every provider API reports success), a zarinpal purchase — a
purchase whose own provider has no credential — is NOT auto-accepted: the
submission is rejected and the purchase stays pending. -/
theorem C2_counterexample :
    truthy (provCred exCfgIdpay exPendingZarin.provider) = false ∧
    keysPresent exCfgIdpay = true ∧
    exStZarin.purchases = [exPendingZarin] ∧
    receipt_handler exCfgIdpay exWorldOn exCat exStZarin 111 "تراکنش 1 abc"
      = (exStZarin, .rejected) :=
  ⟨by decide, by decide, by decide, by decide⟩

/-- C2 amended: the auto-accept fallback is system-wide, not per purchase
provider. Whenever ANY provider credential is configured, a purchase whose own
provider lacks a credential is rejected (database untouched) on every proof
submission. -/
theorem C2_amended_systemwide_fallback
    (cfg : Config) (w : World) (cat : Catalog) (st : St) (uid : Int) (text : String)
    (p : Purchase)
    (hk : keysPresent cfg = true)
    (hcred : truthy (provCred cfg p.provider) = false)
    (hne : pyStrip text ≠ "")
    (hres : resolvedTarget st text = some p) :
    receipt_handler cfg w cat st uid text = (st, .rejected) := by
  unfold resolvedTarget at hres
  cases htid : resolvedTargetId st.purchases (parsedProof text).1 with
  | none => rw [htid] at hres; cases hres
  | some pid =>
    rw [htid] at hres
    have hfind : List.find? (fun q => q.id == pid) st.purchases = some p := hres
    unfold receipt_handler
    simp [htid, hfind, hk, hne, verify_no_cred w hcred]

/-- Witness for the amended C2 at the concrete zarinpal purchase. -/
theorem C2_amended_systemwide_fallback_witness :
    keysPresent exCfgIdpay = true ∧
    truthy (provCred exCfgIdpay exPendingZarin.provider) = false ∧
    pyStrip "تراکنش 1 zzz" ≠ "" ∧
    resolvedTarget exStZarin "تراکنش 1 zzz" = some exPendingZarin ∧
    receipt_handler exCfgIdpay exWorldOn exCat exStZarin 42 "تراکنش 1 zzz"
      = (exStZarin, .rejected) :=
  ⟨by decide, by decide, by decide, by decide,
   C2_amended_systemwide_fallback exCfgIdpay exWorldOn exCat exStZarin 42 "تراکنش 1 zzz"
     exPendingZarin (by decide) (by decide) (by decide) (by decide)⟩

/-- A pending purchase whose product key is absent from the catalog. -/
def exGhostPurchase : Purchase :=
  ⟨1, 1, "ghost", "economic", "idpay", some "tok0", 7000, false, 10⟩

def exStGhost : St := ⟨[exUser], 2, [exGhostPurchase], 2⟩

/-- `exStGhost` after the success update that the failing invocation commits. -/
def exStGhostAfter : St :=
  ⟨[exUser], 2, [⟨1, 1, "ghost", "economic", "idpay", some "newref", 7000, true, 10⟩], 2⟩

/-- C3 counterexample: in auto-accept mode, submitting proof for a purchase
whose product no longer loads ends in an unhandled exception — a failing
invocation — yet the ledger HAS been mutated: the success update was committed
before the fulfillment payload was resolved. -/
theorem C3_counterexample :
    receipt_handler exCfgNone exWorldOff exCat exStGhost 111 "تراکنش 1 newref"
      = (exStGhostAfter, .exn) ∧ exStGhostAfter ≠ exStGhost :=
  ⟨by decide, by decide⟩

/-- C3 amended: every invocation of `receipt_handler` that ends in a NotFound
reply or a verification-failure reply (or the silent empty-text return) leaves
the ledger unchanged, and every failing (`exn`) invocation of
`startpay_handler` leaves the ledger unchanged; but `receipt_handler` commits
the success update before resolving the fulfillment payload, so an `exn`
outcome there can leave a committed write behind. -/
theorem C3_amended_no_write_on_failure_reply
    (cfg : Config) (w : World) (cat : Catalog) (st : St) (uid : Int) (text : String)
    (hfail : (receipt_handler cfg w cat st uid text).2 = .silent ∨
             (receipt_handler cfg w cat st uid text).2 = .noPending ∨
             (receipt_handler cfg w cat st uid text).2 = .purchaseNotFound ∨
             (receipt_handler cfg w cat st uid text).2 = .rejected) :
    (receipt_handler cfg w cat st uid text).1 = st ∧
    ∀ (u : TgUser) (d : String) (now : Int) (tok : String),
      (startpay_handler cat st u d now tok).2 = .exn →
      (startpay_handler cat st u d now tok).1 = st := by
  constructor
  · revert hfail
    unfold receipt_handler
    split
    · intro _
      rfl
    · split
      · intro _
        rfl
      · split
        · intro _
          rfl
        · split
          · split
            · intro hfail
              rcases hfail with h | h | h | h <;> simp at h
            · intro hfail
              rcases hfail with h | h | h | h <;> simp at h
          · intro _
            rfl
  · intro u d now tok
    unfold startpay_handler
    split
    · split
      · intro _
        rfl
      · split
        · intro _
          rfl
        · intro hexn
          simp at hexn
    · intro _
      rfl

/-- Witness for the amended C3: a rejected submission (credential configured,
oracle refusing) leaves the concrete ledger untouched, as does a failing
`startpay_handler` call for an unknown product. -/
theorem C3_amended_no_write_on_failure_reply_witness :
    ((receipt_handler exCfgIdpay exWorldOff exCat exStPending 111 "تراکنش 1 abc").2
        = RResult.silent ∨
     (receipt_handler exCfgIdpay exWorldOff exCat exStPending 111 "تراکنش 1 abc").2
        = RResult.noPending ∨
     (receipt_handler exCfgIdpay exWorldOff exCat exStPending 111 "تراکنش 1 abc").2
        = RResult.purchaseNotFound ∨
     (receipt_handler exCfgIdpay exWorldOff exCat exStPending 111 "تراکنش 1 abc").2
        = RResult.rejected) ∧
    (receipt_handler exCfgIdpay exWorldOff exCat exStPending 111 "تراکنش 1 abc").1
      = exStPending ∧
    ((startpay_handler exCat exStPending ⟨111, "alice"⟩ "startpay|ghost|economic|idpay" 9 "T").2
        = SResult.exn →
     (startpay_handler exCat exStPending ⟨111, "alice"⟩ "startpay|ghost|economic|idpay" 9 "T").1
        = exStPending) :=
  have h := C3_amended_no_write_on_failure_reply exCfgIdpay exWorldOff exCat exStPending 111
    "تراکنش 1 abc" (by decide)
  ⟨by decide, h.1, h.2 ⟨111, "alice"⟩ "startpay|ghost|economic|idpay" 9 "T"⟩


/-- An already-successful purchase whose `provider_ref` holds proof "old". -/
def exDonePurchase : Purchase := ⟨1, 1, "p1", "economic", "idpay", some "old", 10000, true, 10⟩

def exStDone : St := ⟨[exUser], 2, [exDonePurchase], 2⟩

/-- C4 counterexample: the purchase already has `success=1` with
`provider_ref="old"` — its one overwrite happened — yet a later submission
naming its id (auto-accept mode) overwrites `provider_ref` again, to
"second". -/
theorem C4_counterexample :
    exStDone.purchases
      = [⟨1, 1, "p1", "economic", "idpay", some "old", 10000, true, 10⟩] ∧
    keysPresent exCfgNone = false ∧
    (receipt_handler exCfgNone exWorldOff exCat exStDone 111 "تراکنش 1 second").1.purchases
      = [⟨1, 1, "p1", "economic", "idpay", some "second", 10000, true, 10⟩] :=
  ⟨by decide, by decide, by decide⟩

/-- C4 amended: the `UPDATE` carries no pending-only guard, so `provider_ref`
is overwritten on EVERY verified `submit_proof` call — set to the parsed proof
text (possibly NULL) together with `success=1` — including calls that name an
already-successful purchase; it is not write-once after the first success
transition. -/
theorem C4_amended_ref_overwritten_each_verified_call
    (cfg : Config) (w : World) (cat : Catalog) (st : St) (uid : Int) (text : String)
    (p : Purchase)
    (hne : pyStrip text ≠ "")
    (hres : resolvedTarget st text = some p)
    (hv : (verify_with_provider cfg w p.provider (parsedProof text).2 p.amount
            || !keysPresent cfg) = true) :
    (receipt_handler cfg w cat st uid text).1.purchases
      = markSuccess st.purchases p.id (parsedProof text).2 := by
  unfold resolvedTarget at hres
  cases htid : resolvedTargetId st.purchases (parsedProof text).1 with
  | none => rw [htid] at hres; cases hres
  | some pid =>
    rw [htid] at hres
    have hfind : List.find? (fun q => q.id == pid) st.purchases = some p := hres
    have hid : p.id = pid := by
      have hb := List.find?_some hfind
      simpa using hb
    unfold receipt_handler
    rw [hid]
    cases hrl : resolveLink cat p.product_id p.plan with
    | none => simp [htid, hfind, hne, hv, hrl]
    | some l => simp [htid, hfind, hne, hv, hrl]

/-- Witness for the amended C4: a third proof for the already-successful
concrete purchase lands in `provider_ref` again. -/
theorem C4_amended_ref_overwritten_each_verified_call_witness :
    pyStrip "تراکنش 1 third" ≠ "" ∧
    resolvedTarget exStDone "تراکنش 1 third" = some exDonePurchase ∧
    (verify_with_provider exCfgNone exWorldOff exDonePurchase.provider
        (parsedProof "تراکنش 1 third").2 exDonePurchase.amount
      || !keysPresent exCfgNone) = true ∧
    (receipt_handler exCfgNone exWorldOff exCat exStDone 111 "تراکنش 1 third").1.purchases
      = markSuccess exStDone.purchases exDonePurchase.id (parsedProof "تراکنش 1 third").2 :=
  ⟨by decide, by decide, by decide,
   C4_amended_ref_overwritten_each_verified_call exCfgNone exWorldOff exCat exStDone 111
     "تراکنش 1 third" exDonePurchase (by decide) (by decide) (by decide)⟩

/-- C9: a proof submission with an explicit purchase id does not require the
purchase to be pending: on an already-successful purchase it re-runs
verification and, when that passes (here including auto-accept), re-marks
`success=1`, overwrites `provider_ref` with the new proof, and returns the
download link again. -/
theorem C9_resubmit_successful_purchase
    (cfg : Config) (w : World) (cat : Catalog) (st : St) (uid : Int) (text : String)
    (pid : Int) (p : Purchase) (link : String)
    (hne : pyStrip text ≠ "")
    (hpid : (parsedProof text).1 = some pid)
    (hfind : st.purchases.find? (fun q => q.id == pid) = some p)
    (hsucc : p.success = true)
    (hv : (verify_with_provider cfg w p.provider (parsedProof text).2 p.amount
            || !keysPresent cfg) = true)
    (hlink : resolveLink cat p.product_id p.plan = some link) :
    receipt_handler cfg w cat st uid text
      = ({ st with purchases := markSuccess st.purchases pid (parsedProof text).2 },
         .fulfilled link) := by
  have htid : resolvedTargetId st.purchases (parsedProof text).1 = some pid := by
    rw [hpid]
    rfl
  unfold receipt_handler
  simp [htid, hfind, hne, hv, hlink]

/-- Witness for C9 at the concrete already-successful purchase. -/
theorem C9_resubmit_successful_purchase_witness :
    pyStrip "تراکنش 1 fresh" ≠ "" ∧
    (parsedProof "تراکنش 1 fresh").1 = some 1 ∧
    exStDone.purchases.find? (fun q => q.id == 1) = some exDonePurchase ∧
    exDonePurchase.success = true ∧
    (verify_with_provider exCfgNone exWorldOff exDonePurchase.provider
        (parsedProof "تراکنش 1 fresh").2 exDonePurchase.amount
      || !keysPresent exCfgNone) = true ∧
    resolveLink exCat exDonePurchase.product_id exDonePurchase.plan
      = some "https://drive.example/econ" ∧
    receipt_handler exCfgNone exWorldOff exCat exStDone 111 "تراکنش 1 fresh"
      = ({ exStDone with
            purchases := markSuccess exStDone.purchases 1 (parsedProof "تراکنش 1 fresh").2 },
         .fulfilled "https://drive.example/econ") :=
  ⟨by decide, by decide, by decide, by decide, by decide, by decide,
   C9_resubmit_successful_purchase exCfgNone exWorldOff exCat exStDone 111 "تراکنش 1 fresh"
     1 exDonePurchase "https://drive.example/econ"
     (by decide) (by decide) (by decide) (by decide) (by decide) (by decide)⟩

/-- Older pending purchase, user 1. -/
def exP1 : Purchase := ⟨1, 1, "p1", "economic", "idpay", some "t1", 10000, false, 100⟩

/-- Newer pending purchase, user 2. -/
def exP2 : Purchase := ⟨2, 2, "p1", "golden", "nextpay", some "t2", 20000, false, 200⟩

def exUser2 : UserRow := ⟨2, 222, "bob", 6⟩

def exStTwo : St := ⟨[exUser, exUser2], 3, [exP1, exP2], 3⟩

/-- A ledger whose only purchase is already successful. -/
def exStAllDone : St :=
  ⟨[exUser], 2, [⟨1, 1, "p1", "economic", "idpay", some "x", 10000, true, 10⟩], 2⟩

/-- C6: when the proof text parses to no purchase id, `receipt_handler`
targets the most recently created pending purchase across ALL users — a
pending row of maximal `created_at` — no matter which user sent the text; and
when no pending purchase exists it replies NotFound with the ledger
unchanged. -/
theorem C6_latest_pending_global
    (cfg : Config) (w : World) (cat : Catalog) (st : St) (uid : Int) (text : String)
    (hne : pyStrip text ≠ "")
    (hnoid : (parsedProof text).1 = none) :
    ((∀ q ∈ st.purchases, q.success = true) →
        receipt_handler cfg w cat st uid text = (st, .noPending)) ∧
    (∀ p, latestPending st.purchases = some p →
        p ∈ st.purchases ∧ p.success = false ∧
        (∀ q ∈ st.purchases, q.success = false → q.created_at ≤ p.created_at) ∧
        resolvedTargetId st.purchases (parsedProof text).1 = some p.id) ∧
    (∀ u2 : Int, receipt_handler cfg w cat st uid text
        = receipt_handler cfg w cat st u2 text) := by
  refine ⟨?_, ?_, fun _ => rfl⟩
  · intro hall
    have hlp := latestPending_none hall
    have htid : resolvedTargetId st.purchases (parsedProof text).1 = none := by
      rw [hnoid]
      unfold resolvedTargetId
      rw [hlp]
      rfl
    unfold receipt_handler
    simp [hne, htid]
  · intro p hp
    refine ⟨latestPending_mem hp, latestPending_pending hp, latestPending_max hp, ?_⟩
    rw [hnoid]
    unfold resolvedTargetId
    rw [hp]
    rfl

/-- Witness for C6: with two pending purchases of different users the newer
one (user 2's) is targeted even when user 1 sends the text, and with only a
successful purchase the handler replies NotFound. -/
theorem C6_latest_pending_global_witness :
    pyStrip "xyz" ≠ "" ∧
    (parsedProof "xyz").1 = none ∧
    latestPending exStTwo.purchases = some exP2 ∧
    resolvedTargetId exStTwo.purchases (parsedProof "xyz").1 = some exP2.id ∧
    exP2.success = false ∧ exP2.user_id = 2 ∧
    (∀ q ∈ exStAllDone.purchases, q.success = true) ∧
    receipt_handler exCfgNone exWorldOff exCat exStAllDone 111 "xyz"
      = (exStAllDone, .noPending) :=
  have h1 := C6_latest_pending_global exCfgNone exWorldOff exCat exStTwo 111 "xyz"
    (by decide) (by decide)
  have h2 := C6_latest_pending_global exCfgNone exWorldOff exCat exStAllDone 111 "xyz"
    (by decide) (by decide)
  ⟨by decide, by decide, by decide, (h1.2.1 exP2 (by decide)).2.2.2, by decide, by decide,
   by decide, h2.1 (by decide)⟩

/-- C10: a message whose first token is the label `تراکنش` with at least three
tokens but a non-integer second token yields neither purchase id nor proof
(`parseProof` gives `(none, none)`); the handler therefore targets the latest
pending purchase and, in auto-accept mode, marks it `success=1` with a NULL
`provider_ref`. -/
theorem C10_label_bad_id_null_ref
    (cfg : Config) (w : World) (cat : Catalog) (st : St) (uid : Int) (text : String)
    (p0 t1 : String) (rest : List String) (p : Purchase)
    (hsp : pySplit (pyStrip text) = p0 :: t1 :: rest)
    (hlbl : pyLower p0 = "تراکنش")
    (hlen : rest ≠ [])
    (hint : pyInt t1 = none)
    (hnc : keysPresent cfg = false)
    (hlp : latestPending st.purchases = some p) :
    parsedProof text = (none, none) ∧
    (receipt_handler cfg w cat st uid text).1.purchases
      = markSuccess st.purchases p.id none ∧
    { p with success := true, provider_ref := none }
      ∈ (receipt_handler cfg w cat st uid text).1.purchases := by
  have hparse : parsedProof text = (none, none) := by
    unfold parsedProof
    rw [hsp]
    cases rest with
    | nil => exact absurd rfl hlen
    | cons a as => simp [parseProof, hlbl, hint]
  have hne : ¬(pyStrip text == "") = true := by
    intro h
    have hempty : pyStrip text = "" := by simpa using h
    rw [hempty] at hsp
    have : pySplit "" = [] := rfl
    rw [this] at hsp
    cases hsp
  obtain ⟨q, hq⟩ : ∃ q, List.find? (fun r => r.id == p.id) st.purchases = some q := by
    have hsome : (List.find? (fun r => r.id == p.id) st.purchases).isSome := by
      rw [List.find?_isSome]
      exact ⟨p, latestPending_mem hlp, by simp⟩
    exact Option.isSome_iff_exists.mp hsome
  have hmain : (receipt_handler cfg w cat st uid text).1.purchases
      = markSuccess st.purchases p.id none := by
    unfold receipt_handler
    cases hrl : resolveLink cat q.product_id q.plan with
    | none => simp [hne, hparse, resolvedTargetId, hlp, hq, hnc, hrl]
    | some l => simp [hne, hparse, resolvedTargetId, hlp, hq, hnc, hrl]
  refine ⟨hparse, hmain, ?_⟩
  rw [hmain]
  have hp' := latestPending_mem hlp
  have hmem := List.mem_map_of_mem
    (fun r => if r.id == p.id then { r with success := true, provider_ref := none } else r) hp'
  simpa [markSuccess] using hmem

/-- Witness for C10: the message `تراکنش xx abc` (non-integer id token) marks
the newest pending purchase with a NULL reference. -/
theorem C10_label_bad_id_null_ref_witness :
    pySplit (pyStrip "تراکنش xx abc") = "تراکنش" :: "xx" :: ["abc"] ∧
    pyLower "تراکنش" = "تراکنش" ∧
    (["abc"] : List String) ≠ [] ∧
    pyInt "xx" = none ∧
    keysPresent exCfgNone = false ∧
    latestPending exStTwo.purchases = some exP2 ∧
    parsedProof "تراکنش xx abc" = (none, none) ∧
    (receipt_handler exCfgNone exWorldOff exCat exStTwo 111 "تراکنش xx abc").1.purchases
      = markSuccess exStTwo.purchases exP2.id none :=
  have h := C10_label_bad_id_null_ref exCfgNone exWorldOff exCat exStTwo 111 "تراکنش xx abc"
    "تراکنش" "xx" ["abc"] exP2
    (by decide) (by decide) (by decide) (by decide) (by decide) (by decide)
  ⟨by decide, by decide, by decide, by decide, by decide, by decide, h.1, h.2.1⟩

/-! ### Catalog price edits (for the amount-snapshot claim) -/

/-- Price edit of one plan entry: same key, price replaced when the tier name
matches. -/
def setPlanPrice (b : String) (v : Int) (np : String × Plan) : String × Plan :=
  (np.1, if np.1 == b then { np.2 with price := v } else np.2)

/-- Edit one plan\'s stored price in the catalog (a later change to the
product definition), leaving names, download links and all other entries
alone. -/
def setPrice (cat : Catalog) (a b : String) (v : Int) : Catalog :=
  cat.map fun kp =>
    (kp.1,
     if kp.1 == a then { kp.2 with plans := kp.2.plans.map (setPlanPrice b v) } else kp.2)

theorem lookup_setPrice_link (plans : List (String × Plan)) (b plan : String) (v : Int) :
    (List.lookup plan (plans.map (setPlanPrice b v))).map (·.download_link)
      = (List.lookup plan plans).map (·.download_link) := by
  induction plans with
  | nil => rfl
  | cons np rest ih =>
    obtain ⟨k, pl⟩ := np
    by_cases hk : (plan == k)
    · simp [setPlanPrice, List.lookup, hk]
      split <;> rfl
    · simp [setPlanPrice, List.lookup, hk]
      exact ih

theorem resolveLink_setPrice (cat : Catalog) (a b : String) (v : Int) (pid plan : String) :
    resolveLink (setPrice cat a b v) pid plan = resolveLink cat pid plan := by
  induction cat with
  | nil => rfl
  | cons kp rest ih =>
    obtain ⟨k, prod⟩ := kp
    by_cases hp : (pid == k)
    · simp [resolveLink, load_product, setPrice, List.lookup, hp]
      split
      · exact lookup_setPrice_link prod.plans b plan v
      · rfl
    · simpa [resolveLink, load_product, setPrice, List.lookup, hp] using ih

/-- `receipt_handler` reads the catalog only through `resolveLink`, which
ignores prices: its behavior is invariant under any price edit. -/
theorem receipt_handler_setPrice (cfg : Config) (w : World) (cat : Catalog)
    (a b : String) (v : Int) (st : St) (uid : Int) (text : String) :
    receipt_handler cfg w (setPrice cat a b v) st uid text
      = receipt_handler cfg w cat st uid text := by
  unfold receipt_handler
  simp only [resolveLink_setPrice]

theorem ensureUserSt_purchases (st : St) (u : TgUser) (now : Int) :
    (ensureUserSt st u now).purchases = st.purchases := by
  unfold ensureUserSt
  split <;> rfl

theorem ensureUserSt_nextPurchaseId (st : St) (u : TgUser) (now : Int) :
    (ensureUserSt st u now).nextPurchaseId = st.nextPurchaseId := by
  unfold ensureUserSt
  split <;> rfl

/-- C5: `startpay_handler` snapshots `amount` equal to the plan\'s price at
the moment of the call into the new purchase row, and `receipt_handler`
(verification and fulfillment) never re-reads the plan\'s current price: its
entire outcome is invariant under any later price edit of the catalog. -/
theorem C5_amount_snapshot_price_immune
    (cat : Catalog) (st : St) (u : TgUser) (data : String) (now : Int) (tok : String)
    (x pid plan provider : String) (prod : Product) (pl : Plan)
    (hsplit : pySplitChar data '|' = [x, pid, plan, provider])
    (hload : load_product cat pid = some prod)
    (hplan : prod.plans.lookup plan = some pl) :
    (startpay_handler cat st u data now tok).1.purchases
      = st.purchases ++
        [⟨st.nextPurchaseId, ensureUserId st u.id, pid, plan, provider, some tok,
          pl.price, false, now⟩] ∧
    ∀ (cfg : Config) (w : World) (st2 : St) (uid : Int) (text : String)
      (pid2 plan2 : String) (v2 : Int),
      receipt_handler cfg w (setPrice cat pid2 plan2 v2) st2 uid text
        = receipt_handler cfg w cat st2 uid text := by
  constructor
  · unfold startpay_handler
    simp [hsplit, hload, hplan, ensureUserSt_purchases, ensureUserSt_nextPurchaseId]
  · intro cfg w st2 uid text pid2 plan2 v2
    exact receipt_handler_setPrice cfg w cat pid2 plan2 v2 st2 uid text

/-- Witness for C5: the concrete checkout stores amount 10000 (the economic
price at call time), and a later price edit to 99999 does not change what the
proof-submission handler does. -/
theorem C5_amount_snapshot_price_immune_witness :
    pySplitChar "startpay|p1|economic|idpay" '|' = ["startpay", "p1", "economic", "idpay"] ∧
    load_product exCat "p1" = some exProd ∧
    exProd.plans.lookup "economic" = some exEcon ∧
    (startpay_handler exCat exStPending ⟨111, "alice"⟩ "startpay|p1|economic|idpay"
        50 "TK").1.purchases
      = exStPending.purchases ++
        [⟨2, 1, "p1", "economic", "idpay", some "TK", 10000, false, 50⟩] ∧
    receipt_handler exCfgNone exWorldOff (setPrice exCat "p1" "economic" 99999)
        exStPending 111 "abc"
      = receipt_handler exCfgNone exWorldOff exCat exStPending 111 "abc" :=
  have h := C5_amount_snapshot_price_immune exCat exStPending ⟨111, "alice"⟩
    "startpay|p1|economic|idpay" 50 "TK" "startpay" "p1" "economic" "idpay" exProd exEcon
    (by decide) (by decide) (by decide)
  ⟨by decide, by decide, by decide, h.1,
   h.2 exCfgNone exWorldOff exStPending 111 "abc" "p1" "economic" 99999⟩

/-- C7 counterexample: an unknown product key in the buy and startpay
callbacks is NOT surfaced as a denial message — both handlers end in an
unhandled exception, with no reply to the user. -/
theorem C7_counterexample :
    load_product exCat "nope" = none ∧
    callback_buy exCat "buy|nope|economic" = .exn ∧
    startpay_handler exCat exStPending ⟨111, "alice"⟩ "startpay|nope|economic|idpay" 9 "T"
      = (exStPending, .exn) :=
  ⟨by decide, by decide, by decide⟩

/-- C7 amended: only `product_view` surfaces an invalid product key as a plain
denial message; `callback_buy` and `startpay_handler` end in an unhandled
exception (no user-facing message, ledger unchanged) for an invalid product
key or plan name — their only denial reply is for a malformed payload. -/
theorem C7_amended_notfound_handling :
    (∀ (cat : Catalog) (text pid : String),
        productViewParse text = some pid → load_product cat pid = none →
        product_view cat text = .productNotFound) ∧
    (∀ (cat : Catalog) (d x pid plan : String),
        pySplitChar d '|' = [x, pid, plan] → load_product cat pid = none →
        callback_buy cat d = .exn) ∧
    (∀ (cat : Catalog) (d x pid plan : String) (prod : Product),
        pySplitChar d '|' = [x, pid, plan] → load_product cat pid = some prod →
        prod.plans.lookup plan = none → callback_buy cat d = .exn) ∧
    (∀ (cat : Catalog) (st : St) (u : TgUser) (d x pid plan prov : String)
        (now : Int) (tok : String),
        pySplitChar d '|' = [x, pid, plan, prov] → load_product cat pid = none →
        startpay_handler cat st u d now tok = (st, .exn)) ∧
    (∀ (cat : Catalog) (st : St) (u : TgUser) (d x pid plan prov : String)
        (prod : Product) (now : Int) (tok : String),
        pySplitChar d '|' = [x, pid, plan, prov] → load_product cat pid = some prod →
        prod.plans.lookup plan = none →
        startpay_handler cat st u d now tok = (st, .exn)) := by
  refine ⟨?_, ?_, ?_, ?_, ?_⟩
  · intro cat text pid h1 h2
    unfold product_view
    simp [h1, h2]
  · intro cat d x pid plan h1 h2
    unfold callback_buy
    simp [h1, h2]
  · intro cat d x pid plan prod h1 h2 h3
    unfold callback_buy
    simp [h1, h2, h3]
  · intro cat st u d x pid plan prov now tok h1 h2
    unfold startpay_handler
    simp [h1, h2]
  · intro cat st u d x pid plan prov prod now tok h1 h2 h3
    unfold startpay_handler
    simp [h1, h2, h3]

/-- Witness for the amended C7: concrete invalid keys and plan names for each
handler. -/
theorem C7_amended_notfound_handling_witness :
    productViewParse "/product_nope" = some "nope" ∧
    load_product exCat "nope" = none ∧
    product_view exCat "/product_nope" = .productNotFound ∧
    callback_buy exCat "buy|nope|economic" = .exn ∧
    callback_buy exCat "buy|p1|silver" = .exn ∧
    startpay_handler exCat exStPending ⟨111, "alice"⟩ "startpay|nope|economic|idpay" 9 "T"
      = (exStPending, .exn) ∧
    startpay_handler exCat exStPending ⟨111, "alice"⟩ "startpay|p1|silver|idpay" 9 "T"
      = (exStPending, .exn) :=
  have h := C7_amended_notfound_handling
  ⟨by decide, by decide,
   h.1 exCat "/product_nope" "nope" (by decide) (by decide),
   h.2.1 exCat "buy|nope|economic" "buy" "nope" "economic" (by decide) (by decide),
   h.2.2.1 exCat "buy|p1|silver" "buy" "p1" "silver" exProd (by decide) (by decide) (by decide),
   h.2.2.2.1 exCat exStPending ⟨111, "alice"⟩ "startpay|nope|economic|idpay" "startpay"
     "nope" "economic" "idpay" 9 "T" (by decide) (by decide),
   h.2.2.2.2 exCat exStPending ⟨111, "alice"⟩ "startpay|p1|silver|idpay" "startpay"
     "p1" "silver" "idpay" exProd 9 "T" (by decide) (by decide) (by decide)⟩

end StoreBot
